import Mathlib

/-!
Verification of `aw-client`'s command-line helper (`src/aw_client/cli.py`)
against its natural-language specification.

The Python module is embedded shallowly:
* `formatDuration` embeds the idiom `str(timedelta(seconds=x)).split(".")[0]`
  used for per-event durations; durations are modelled at microsecond
  granularity, which is exactly the resolution `datetime.timedelta` stores.
* `_query_yes_no` embeds the confirmation prompt loop, with the interactive
  input stream made explicit as a list of lines.
* Each `AWCLIHelper` method becomes a function from its arguments and the
  external collaborators' responses (the REST client and `json.loads` are
  external collaborators per the spec) to a `RunResult` recording the server
  calls issued, the lines printed, and the termination status.
* `runMain` embeds the `if/elif` dispatch chain of `main()` over the parsed
  command (`args.which`).
-/

namespace AwCli

/-- Decimal digit character, as produced by Python's `%d` formatting.
Arguments outside 0..9 never arise. -/
def digitChar : ℕ → Char
  | 0 => '0'
  | 1 => '1'
  | 2 => '2'
  | 3 => '3'
  | 4 => '4'
  | 5 => '5'
  | 6 => '6'
  | 7 => '7'
  | 8 => '8'
  | 9 => '9'
  | _ => '*'

/-- Accumulator-style decimal rendering of a natural number; `fuel` bounds
the recursion depth (any `fuel ≥` number of digits gives the full answer). -/
def natToStrAux : ℕ → ℕ → List Char → List Char
  | 0, _, acc => acc
  | fuel + 1, n, acc =>
    if n < 10 then digitChar n :: acc
    else natToStrAux fuel (n / 10) (digitChar (n % 10) :: acc)

/-- Decimal rendering of a natural number (Python `"%d" % n`). -/
def natToStr (n : ℕ) : String :=
  ⟨natToStrAux (n + 1) n []⟩

/-- Zero-padded decimal rendering to width `w` (Python `"%0wd" % n`). -/
def padZero (w n : ℕ) : String :=
  ⟨List.replicate (w - (natToStrAux (n + 1) n []).length) '0'⟩ ++ natToStr n

/-- Day-count label used by `timedelta.__str__` (`"%d day%s, "`). -/
def daysLabel (d : ℕ) : String :=
  if d = 1 then "1 day, " else natToStr d ++ " days, "

/-- The whole-second part of `str(datetime.timedelta)` for a non-negative
duration of `sec` seconds: optional day label, then `H:MM:SS` with hours in
0..23 and minutes/seconds zero-padded to two digits. -/
def timedeltaBase (sec : ℕ) : String :=
  (if sec / 86400 = 0 then "" else daysLabel (sec / 86400)) ++
    natToStr (sec % 86400 / 3600) ++ ":" ++
    padZero 2 (sec % 3600 / 60) ++ ":" ++
    padZero 2 (sec % 60)

/-- `str(datetime.timedelta)` for a non-negative duration of `us`
microseconds: the whole-second part, plus `.%06d` microseconds when they are
non-zero. -/
def timedeltaStr (us : ℕ) : String :=
  if us % 1000000 = 0 then timedeltaBase (us / 1000000)
  else timedeltaBase (us / 1000000) ++ "." ++ padZero 6 (us % 1000000)

/-- Python `s.split(".")[0]`: the prefix of `s` before the first dot. -/
def splitDot (s : String) : String :=
  ⟨s.data.takeWhile (fun c => c != '.')⟩

/-- The duration formatter the CLI uses for event durations
(`str(timedelta(seconds=...)).split(".")[0]`, cli.py lines 94 and 107-108). -/
def formatDuration (us : ℕ) : String :=
  splitDot (timedeltaStr us)

/-- Modelled from the spec: an `H:MM:SS` rendering with hours unbounded
("Renders as H:MM:SS with hours unbounded"), used to compare the spec's
wording with the code's actual formatter. -/
def specFormatHMS (us : ℕ) : String :=
  natToStr (us / 1000000 / 3600) ++ ":" ++
    padZero 2 (us / 1000000 % 3600 / 60) ++ ":" ++
    padZero 2 (us / 1000000 % 60)

example : formatDuration 0 = "0:00:00" := rfl
example : formatDuration 3661000000 = "1:01:01" := rfl
example : formatDuration 59900000 = "0:00:59" := rfl
example : formatDuration 86400000000 = "1 day, 0:00:00" := rfl
example : specFormatHMS 86400000000 = "24:00:00" := rfl
example : timedeltaStr 59900000 = "0:00:59.900000" := rfl

/-- ASCII lower-casing of one character, as `str.lower()` does on the
answers the prompt recognizes. -/
def lowerChar (c : Char) : Char :=
  if 'A' ≤ c ∧ c ≤ 'Z' then Char.ofNat (c.toNat + 32) else c

/-- Python `s.lower()` (restricted to ASCII, which covers every string the
prompt compares against). -/
def pyLower (s : String) : String :=
  ⟨s.data.map lowerChar⟩

/-- The `valid` answer table of `_query_yes_no` (cli.py line 32). -/
def validAnswer : String → Option Bool
  | "yes" => some true
  | "y" => some true
  | "ye" => some true
  | "no" => some false
  | "n" => some false
  | _ => none

/-- Outcome of the prompt loop: either the user gave a recognized answer, or
the modelled input stream ran out while the loop was still re-prompting. -/
inductive ConfirmOutcome
  | answered (b : Bool)
  | needInput
deriving DecidableEq

/-- The `while True` loop of `_query_yes_no` (cli.py lines 42-51), with the
interactive input made explicit as a list of lines. An exhausted list means
the loop is still waiting for input. The `KeyError` branch mirrors
`valid[default]`, unreachable once the default has been validated. -/
def queryLoop (default : Option String) : List String → Except String ConfirmOutcome
  | [] => .ok .needInput
  | line :: rest =>
    let choice := pyLower line
    if default.isSome && choice == "" then
      match default.bind validAnswer with
      | some b => .ok (.answered b)
      | none => .error "KeyError"
    else
      match validAnswer choice with
      | some b => .ok (.answered b)
      | none => queryLoop default rest

/-- `_query_yes_no(question, default)` (cli.py lines 22-51): validates the
default (raising `ValueError` for anything but `None`/`"yes"`/`"no"`), then
runs the prompt loop over the given input lines. The `question` argument is
only written to stdout, which is not modelled. -/
def _query_yes_no (_question : String) (default : Option String)
    (inputs : List String) : Except String ConfirmOutcome :=
  match default with
  | none => queryLoop none inputs
  | some d =>
    if d = "yes" then queryLoop (some d) inputs
    else if d = "no" then queryLoop (some d) inputs
    else .error ("invalid default answer: \"" ++ d ++ "\"")

example : _query_yes_no "Q" (some "yes") [""] = .ok (.answered true) := rfl
example : _query_yes_no "Q" (some "no") [""] = .ok (.answered false) := rfl
example : _query_yes_no "Q" none ["", "foo", "YE"] = .ok (.answered true) := rfl
example : _query_yes_no "Q" none ["", "foo"] = .ok .needInput := rfl
example : _query_yes_no "Q" (some "maybe") ["y"] =
    .error ("invalid default answer: \"maybe\"") := rfl

/-- The `aw_core.Event` built by `CreateHeartbeat` (cli.py line 65):
duration, timestamp (an opaque instant, modelled as a number), and the
parsed JSON payload (opaque, modelled by its textual rendering). -/
structure HBEvent where
  duration : ℕ
  timestamp : ℕ
  data : String
deriving DecidableEq

/-- One event record inside a query-result period (a JSON object). Only the
presence of the `id` and `timestamp` keys, the numeric `duration` value (in
microseconds) and the rendering of the `data` value are relevant to the
renderer. -/
structure QEvent where
  hasId : Bool
  hasTimestamp : Bool
  duration_us : ℕ
  data : String
deriving DecidableEq

/-- One event returned by `get_events`, as consumed by `ListEvents`:
`ts_str` is the rendering of `e.timestamp.replace(tzinfo=None,
microsecond=0)` (external datetime formatting), `duration_us` the duration
in microseconds, `data` the rendering of `e.data`. -/
structure LEvent where
  ts_str : String
  duration_us : ℕ
  data : String
deriving DecidableEq

/-- One call to the REST-client collaborator (`self.client.…`), with the
arguments the CLI passes. Note `get_events` carries no limit argument,
exactly as in cli.py line 89. -/
inductive ServerCall
  | heartbeat (bucket : String) (e : HBEvent) (pulsetime : ℕ)
  | get_buckets
  | create_bucket (bucket btype : String)
  | delete_bucket (bucket : String)
  | get_events (bucket : String)
  | query (src : String) (start stop : ℕ) (cache : Bool) (name : Option String)
deriving DecidableEq

/-- One line written to stdout. Help screens and reprs produced by external
collaborators (`print(e)`, `json.dumps`) are kept symbolic. -/
inductive OutLine
  | text (s : String)
  | printedEvent (e : HBEvent)
  | jsonDump (result : List (List QEvent))
  | eventsHelp
  | topLevelHelp
deriving DecidableEq

/-- Termination status of one invocation: normal return (exit status 0), an
uncaught exception (non-zero exit), or blocked reading interactive input. -/
inductive Status
  | ok
  | exn (msg : String)
  | blockedOnInput
deriving DecidableEq

/-- The observable effect of one invocation: server calls issued in order,
stdout lines, and the termination status. -/
structure RunResult where
  calls : List ServerCall
  out : List OutLine
  status : Status
deriving DecidableEq

/-- `AWCLIHelper.CreateHeartbeat` (cli.py lines 63-67). `json.loads` is an
external collaborator, passed in as `jloads`; a parse failure raises before
anything is printed or sent. -/
def CreateHeartbeat (jloads : String → Option String) (bucket data : String)
    (timestamp pulsetime : ℕ) : RunResult :=
  match jloads data with
  | none => { calls := [], out := [], status := .exn "json.JSONDecodeError" }
  | some v =>
    let e : HBEvent := { duration := 0, timestamp := timestamp, data := v }
    { calls := [.heartbeat bucket e pulsetime],
      out := [.printedEvent e],
      status := .ok }

/-- `AWCLIHelper.ListBuckets` (cli.py lines 69-74); `buckets` is the
collaborator's response to `get_buckets`. -/
def ListBuckets (buckets : List String) : RunResult :=
  { calls := [.get_buckets],
    out := .text "Buckets:" :: buckets.map (fun b => .text (" - " ++ b)),
    status := .ok }

/-- `AWCLIHelper.CreateBucket` (cli.py lines 76-79): create the bucket, then
run `ListBuckets`. -/
def CreateBucket (buckets : List String) (bucket btype : String) : RunResult :=
  let r := ListBuckets buckets
  { calls := .create_bucket bucket btype :: r.calls,
    out := r.out,
    status := r.status }

/-- `AWCLIHelper.DeleteBucket` (cli.py lines 81-86): delete unconditionally
when forced, otherwise prompt with the bucket name in the question and
default `"no"` and delete only on a yes answer. -/
def DeleteBucket (bucket : String) (force : Bool) (stdin : List String) : RunResult :=
  if force then
    { calls := [.delete_bucket bucket], out := [], status := .ok }
  else
    match _query_yes_no ("Really Delete bucket " ++ bucket) (some "no") stdin with
    | .error m => { calls := [], out := [], status := .exn m }
    | .ok .needInput => { calls := [], out := [], status := .blockedOnInput }
    | .ok (.answered true) =>
      { calls := [.delete_bucket bucket], out := [], status := .ok }
    | .ok (.answered false) => { calls := [], out := [], status := .ok }

/-- The per-event line of `ListEvents` (cli.py lines 92-94). -/
def listEventLine (e : LEvent) : String :=
  " - " ++ e.ts_str ++ " (" ++ formatDuration e.duration_us ++ ") " ++ e.data

/-- `AWCLIHelper.ListEvents` (cli.py lines 88-94); `events` is the
collaborator's response to `get_events`. The `limit` parameter is accepted
but never used by the method body. -/
def ListEvents (events : List LEvent) (bucket : String) (limit : ℕ) : RunResult :=
  { calls := [.get_events bucket],
    out := .text "events:" :: events.map (fun e => .text (listEventLine e)),
    status := .ok }

/-- The event record after `event.pop("id")` and `event.pop("timestamp")`
(cli.py lines 104-105). -/
def stripEvent (e : QEvent) : QEvent :=
  { e with hasId := false, hasTimestamp := false }

/-- The per-event line of the human-readable query render (cli.py lines
106-109): truncated duration and the `data` value. -/
def eventLine (e : QEvent) : String :=
  " - Duration: " ++ formatDuration e.duration_us ++ " \tData: " ++ e.data

/-- The `for event in period[:10]` loop body (cli.py lines 103-109): pop
`id` (KeyError when absent), pop `timestamp` (KeyError when absent), print
the line. Returns the lines printed before any failure, and the failure. -/
def renderEvents : List QEvent → List String × Option String
  | [] => ([], none)
  | e :: rest =>
    if e.hasId then
      if e.hasTimestamp then
        let r := renderEvents rest
        (eventLine (stripEvent e) :: r.1, r.2)
      else ([], some "KeyError: timestamp")
    else ([], some "KeyError: id")

/-- Sum of the `duration` values over a whole period (cli.py line 111). -/
def sumDuration (p : List QEvent) : ℕ :=
  (p.map (fun e => e.duration_us)).sum

/-- The `print("Total duration:\t", timedelta(...))` line (cli.py lines
110-111): note the plain `timedelta` rendering, not the split-at-dot one. -/
def totalLine (p : List QEvent) : String :=
  "Total duration:\t " ++ timedeltaStr (sumDuration p)

/-- One iteration of the `for period in result` loop (cli.py lines
101-111): header, first ten events, total line — the total is skipped when
a `KeyError` escapes the event loop. -/
def renderPeriod (p : List QEvent) : List String × Option String :=
  let header := "Showing 10 out of " ++ natToStr p.length ++ " events:"
  match renderEvents (p.take 10) with
  | (lines, none) => (header :: lines ++ [totalLine p], none)
  | (lines, some m) => (header :: lines, some m)

/-- The whole non-JSON render of `QueryEvents` (cli.py lines 101-111),
period by period, stopping at the first uncaught `KeyError`. -/
def renderPeriods : List (List QEvent) → List String × Option String
  | [] => ([], none)
  | p :: rest =>
    match renderPeriod p with
    | (lines, some m) => (lines, some m)
    | (lines, none) =>
      let r := renderPeriods rest
      (lines ++ r.1, r.2)

/-- `AWCLIHelper.QueryEvents` (cli.py lines 96-111); `result` is the
collaborator's response to `query`. -/
def QueryEvents (result : List (List QEvent)) (query : String)
    (start stop : ℕ) (cache : Bool) (name : Option String)
    (print_json : Bool) : RunResult :=
  let calls : List ServerCall := [.query query start stop cache name]
  if print_json then
    { calls := calls, out := [.jsonDump result], status := .ok }
  else
    let r := renderPeriods result
    { calls := calls,
      out := r.1.map .text,
      status := match r.2 with | none => .ok | some m => .exn m }

/-- The parsed command, i.e. the `args.which` tag (set by `set_defaults` in
`main`) together with the arguments that subcommand's parser accepts.
`query` carries both the path argument and the file's content (the file
read at cli.py line 254 is external I/O). -/
inductive Cmd
  | heartbeat (bucket data : String) (pulsetime : ℕ)
  | bucketsBare
  | bucketsList
  | bucketsAdd (bucket btype : String)
  | bucketsDelete (bucket : String) (force : Bool)
  | eventsBare
  | eventsList (bucket : String) (limit : ℕ)
  | eventsAdd (bucket data : String) (duration : Option ℕ) (squash_within : ℕ)
  | eventsDelete (bucket : String) (force : Bool)
  | query (path : String) (start stop : ℕ) (cache : Bool)
      (name : Option String) (asJson : Bool)
  | noCommand

/-- The external collaborators' behaviour for one invocation: the JSON
parser, the filesystem (`files path` is the content `open(path).read()`
returns, `none` when the path is unreadable and `open` raises), the
invocation timestamp `now`, the server's responses, and the interactive
input lines. -/
structure Env where
  jloads : String → Option String
  files : String → Option String
  now : ℕ
  buckets : List String
  events : List LEvent
  queryResult : List (List QEvent)
  stdin : List String

/-- The `if/elif` dispatch chain of `main` (cli.py lines 241-259). The
commands with no branch of their own — bare `buckets`, `events add`,
`events delete`, and no command at all — fall through to the final `else`,
which prints the top-level help and returns normally. The `query` branch
first reads the query file (`with open(args.path) as f`, cli.py lines
253-255): an unreadable path raises `IOError` there, before any server
call. -/
def runMain (env : Env) : Cmd → RunResult
  | .heartbeat bucket data pulsetime =>
    CreateHeartbeat env.jloads bucket data env.now pulsetime
  | .bucketsList => ListBuckets env.buckets
  | .bucketsAdd bucket btype => CreateBucket env.buckets bucket btype
  | .bucketsDelete bucket force => DeleteBucket bucket force env.stdin
  | .eventsBare => { calls := [], out := [.eventsHelp], status := .ok }
  | .eventsList bucket limit => ListEvents env.events bucket limit
  | .query path start stop cache name asJson =>
    match env.files path with
    | none => { calls := [], out := [], status := .exn "IOError" }
    | some src => QueryEvents env.queryResult src start stop cache name asJson
  | _ => { calls := [], out := [.topLevelHelp], status := .ok }

/-- A string containing no dot character; `split(".")[0]` leaves such a
string unchanged. -/
def NoDot (s : String) : Prop :=
  ∀ c ∈ s.data, c ≠ '.'

theorem data_append (s t : String) : (s ++ t).data = s.data ++ t.data := by
  cases s
  cases t
  rfl

theorem noDot_append {s t : String} (hs : NoDot s) (ht : NoDot t) :
    NoDot (s ++ t) := by
  intro c hc
  rw [data_append] at hc
  rcases List.mem_append.mp hc with h | h
  · exact hs c h
  · exact ht c h

theorem digitChar_ne_dot (d : ℕ) : digitChar d ≠ '.' := by
  unfold digitChar
  split <;> decide

theorem natToStrAux_mem {c : Char} :
    ∀ (fuel n : ℕ) (acc : List Char), c ∈ natToStrAux fuel n acc →
      (∃ d, c = digitChar d) ∨ c ∈ acc := by
  intro fuel
  induction fuel with
  | zero => intro n acc h; exact Or.inr h
  | succ fuel ih =>
    intro n acc h
    rw [natToStrAux] at h
    split at h
    · rcases List.mem_cons.mp h with h | h
      · exact Or.inl ⟨n, h⟩
      · exact Or.inr h
    · rcases ih (n / 10) (digitChar (n % 10) :: acc) h with h | h
      · exact Or.inl h
      · rcases List.mem_cons.mp h with h | h
        · exact Or.inl ⟨n % 10, h⟩
        · exact Or.inr h

theorem noDot_natToStr (n : ℕ) : NoDot (natToStr n) := by
  intro c hc
  rcases natToStrAux_mem (n + 1) n [] hc with ⟨d, rfl⟩ | h
  · exact digitChar_ne_dot d
  · cases h

theorem noDot_padZero (w n : ℕ) : NoDot (padZero w n) := by
  intro c hc
  rw [padZero, data_append] at hc
  rcases List.mem_append.mp hc with h | h
  · rw [List.eq_of_mem_replicate h]
    decide
  · exact noDot_natToStr n c h

theorem noDot_daysLabel (d : ℕ) : NoDot (daysLabel d) := by
  rw [daysLabel]
  split
  · intro c hc; fin_cases hc <;> decide
  · exact noDot_append (noDot_natToStr d) (fun c hc => by fin_cases hc <;> decide)

theorem noDot_timedeltaBase (sec : ℕ) : NoDot (timedeltaBase sec) := by
  rw [timedeltaBase]
  refine noDot_append (noDot_append (noDot_append (noDot_append (noDot_append ?_ ?_) ?_) ?_) ?_) ?_
  · split
    · intro c hc; cases hc
    · exact noDot_daysLabel _
  · exact noDot_natToStr _
  · intro c hc; fin_cases hc; decide
  · exact noDot_padZero _ _
  · intro c hc; fin_cases hc; decide
  · exact noDot_padZero _ _

theorem takeWhile_noDot {l : List Char} (h : ∀ c ∈ l, c ≠ '.') :
    l.takeWhile (fun c => c != '.') = l := by
  induction l with
  | nil => rfl
  | cons a l ih =>
    rw [List.takeWhile_cons]
    have ha : (a != '.') = true := bne_iff_ne.mpr (h a (List.mem_cons_self a l))
    rw [ha]
    simp only [if_true, List.cons.injEq, true_and]
    exact ih (fun c hc => h c (List.mem_cons_of_mem a hc))

theorem takeWhile_dot {l m : List Char} (h : ∀ c ∈ l, c ≠ '.') :
    (l ++ '.' :: m).takeWhile (fun c => c != '.') = l := by
  induction l with
  | nil => rfl
  | cons a l ih =>
    rw [List.cons_append, List.takeWhile_cons]
    have ha : (a != '.') = true := bne_iff_ne.mpr (h a (List.mem_cons_self a l))
    rw [ha]
    simp only [if_true, List.cons.injEq, true_and]
    exact ih (fun c hc => h c (List.mem_cons_of_mem a hc))

theorem splitDot_of_noDot {s : String} (h : NoDot s) : splitDot s = s := by
  rw [splitDot, takeWhile_noDot h]

theorem splitDot_around_dot {s t : String} (h : NoDot s) :
    splitDot (s ++ "." ++ t) = s := by
  rw [splitDot, data_append, data_append]
  have : ("." : String).data ++ t.data = '.' :: t.data := rfl
  rw [List.append_assoc, this, takeWhile_dot h]

/-- The code's duration formatter always yields the truncated whole-second
rendering: `formatDuration` depends only on the whole seconds of its input,
and equals Python's `str(timedelta)` for that many whole seconds. -/
theorem formatDuration_eq_base (us : ℕ) :
    formatDuration us = timedeltaBase (us / 1000000) := by
  rw [formatDuration, timedeltaStr]
  split
  · exact splitDot_of_noDot (noDot_timedeltaBase _)
  · exact splitDot_around_dot (noDot_timedeltaBase _)

theorem renderEvents_ok {l : List QEvent}
    (h : ∀ e ∈ l, e.hasId = true ∧ e.hasTimestamp = true) :
    renderEvents l = (l.map (fun e => eventLine (stripEvent e)), none) := by
  induction l with
  | nil => rfl
  | cons e l ih =>
    have he := h e (List.mem_cons_self e l)
    rw [renderEvents, he.1, he.2]
    simp only [if_true]
    rw [ih (fun x hx => h x (List.mem_cons_of_mem e hx))]
    rfl

theorem renderEvents_none_iff (l : List QEvent) :
    (renderEvents l).2 = none ↔
      ∀ e ∈ l, e.hasId = true ∧ e.hasTimestamp = true := by
  induction l with
  | nil => simp [renderEvents]
  | cons e l ih =>
    rw [renderEvents]
    rcases hid : e.hasId with _ | _
    · simp only [if_false, List.mem_cons]
      constructor
      · intro h; cases h
      · intro h
        exact absurd (h e (Or.inl rfl)).1 (by rw [hid]; decide)
    · rcases hts : e.hasTimestamp with _ | _
      · simp only [if_true, if_false, List.mem_cons]
        constructor
        · intro h; cases h
        · intro h
          exact absurd (h e (Or.inl rfl)).2 (by rw [hts]; decide)
      · simp only [if_true, List.mem_cons]
        rw [show ((eventLine (stripEvent e) :: (renderEvents l).1,
              (renderEvents l).2).2 = (renderEvents l).2) from rfl]
        rw [ih]
        constructor
        · intro h x hx
          rcases hx with rfl | hx
          · exact ⟨hid, hts⟩
          · exact h x hx
        · intro h x hx
          exact h x (Or.inr hx)

theorem renderPeriod_snd (p : List QEvent) :
    (renderPeriod p).2 = (renderEvents (p.take 10)).2 := by
  rw [renderPeriod]
  rcases hr : renderEvents (p.take 10) with ⟨lines, err⟩
  cases err <;> simp

theorem renderPeriod_ok {p : List QEvent}
    (h : ∀ e ∈ p.take 10, e.hasId = true ∧ e.hasTimestamp = true) :
    renderPeriod p =
      (("Showing 10 out of " ++ natToStr p.length ++ " events:") ::
        ((p.take 10).map (fun e => eventLine (stripEvent e)) ++ [totalLine p]),
       none) := by
  rw [renderPeriod, renderEvents_ok h]
  rfl

theorem renderPeriods_none_iff (periods : List (List QEvent)) :
    (renderPeriods periods).2 = none ↔
      ∀ p ∈ periods, ∀ e ∈ p.take 10,
        e.hasId = true ∧ e.hasTimestamp = true := by
  induction periods with
  | nil => simp [renderPeriods]
  | cons p rest ih =>
    rw [renderPeriods]
    rcases hp : renderPeriod p with ⟨lines, err⟩
    have hsnd : (renderPeriod p).2 = err := by rw [hp]
    rw [renderPeriod_snd] at hsnd
    cases err with
    | some m =>
      simp only [List.mem_cons]
      constructor
      · intro h; cases h
      · intro h
        have := (renderEvents_none_iff (p.take 10)).mpr (h p (Or.inl rfl))
        rw [hsnd] at this
        cases this
    | none =>
      simp only [List.mem_cons]
      rw [show ((lines ++ (renderPeriods rest).1, (renderPeriods rest).2).2
            = (renderPeriods rest).2) from rfl]
      rw [ih]
      constructor
      · intro h x hx
        rcases hx with rfl | hx
        · exact (renderEvents_none_iff (x.take 10)).mp hsnd
        · exact h x hx
      · intro h x hx
        exact h x (Or.inr hx)

/-- Concrete fixtures used by counterexamples and witnesses. -/
def lev1 : LEvent :=
  { ts_str := "2019-06-09 12:00:00", duration_us := 1000000, data := "a" }

def lev2 : LEvent :=
  { ts_str := "2019-06-09 12:00:01", duration_us := 2000000, data := "b" }

def qev599 : QEvent :=
  { hasId := true, hasTimestamp := true, duration_us := 59900000, data := "d" }

def qevNoId : QEvent :=
  { hasId := false, hasTimestamp := true, duration_us := 1000000, data := "d" }

def sampleEnv : Env :=
  { jloads := fun s => if s = "\x7b\x7d" then some "\x7b\x7d" else none,
    files := fun p => if p = "q.txt" then some "RETURN = 1;" else none,
    now := 0,
    buckets := ["b1"],
    events := [lev1, lev2],
    queryResult := [],
    stdin := ["y"] }

/-- Claim C1: the spec says `ListEvents` fetches up to `limit` events and
the limit bounds what is requested and printed. The code accepts the limit
(documented in the `--limit` help text as the number of events to retrieve)
but never uses it: the result is independent of the limit, the `get_events`
call carries no limit, and with limit 1 and two server events both events
are printed (three output lines: header plus two event lines, 2 > 1). -/
theorem C1_limit_ignored :
    (∀ (events : List LEvent) (bucket : String) (l1 l2 : ℕ),
        ListEvents events bucket l1 = ListEvents events bucket l2)
    ∧ (ListEvents [lev1, lev2] "b" 1).calls = [ServerCall.get_events "b"]
    ∧ (ListEvents [lev1, lev2] "b" 1).out.length = 3
    ∧ ¬ ((2 : ℕ) ≤ 1) :=
  ⟨fun _ _ _ _ => rfl, rfl, rfl, by decide⟩

/-- Claim C2 counterexample: dispatching `buckets add` performs two server
calls (`create_bucket` then `get_buckets`), not exactly one. -/
theorem C2_counterexample :
    (runMain sampleEnv (Cmd.bucketsAdd "b" "t")).calls.length = 2
    ∧ (2 : ℕ) ≠ 1 :=
  ⟨rfl, by decide⟩

/-- Claim C2 (amended): heartbeat with a valid payload, buckets list,
events list, and query with a readable query file each perform exactly one
server call; buckets add performs exactly two; query with an unreadable
file fails before any call (zero calls); buckets delete performs one call
when forced, and otherwise one call exactly when the prompt answers yes
and zero otherwise. -/
theorem C2_amended :
    (∀ (env : Env) (b d : String) (pt : ℕ) (v : String),
        env.jloads d = some v →
        (runMain env (Cmd.heartbeat b d pt)).calls.length = 1)
  ∧ (∀ env : Env, (runMain env Cmd.bucketsList).calls.length = 1)
  ∧ (∀ (env : Env) (b t : String),
        (runMain env (Cmd.bucketsAdd b t)).calls.length = 2)
  ∧ (∀ (env : Env) (b : String) (lim : ℕ),
        (runMain env (Cmd.eventsList b lim)).calls.length = 1)
  ∧ (∀ (env : Env) (p : String) (st sp : ℕ) (c : Bool)
        (n : Option String) (j : Bool) (src : String),
        env.files p = some src →
        (runMain env (Cmd.query p st sp c n j)).calls.length = 1)
  ∧ (∀ (env : Env) (p : String) (st sp : ℕ) (c : Bool)
        (n : Option String) (j : Bool),
        env.files p = none →
        (runMain env (Cmd.query p st sp c n j)).calls.length = 0)
  ∧ (∀ (env : Env) (b : String),
        (runMain env (Cmd.bucketsDelete b true)).calls.length = 1)
  ∧ (∀ (env : Env) (b : String),
        (runMain env (Cmd.bucketsDelete b false)).calls.length =
          match _query_yes_no ("Really Delete bucket " ++ b) (some "no") env.stdin with
          | .ok (.answered true) => 1
          | _ => 0) := by
  refine ⟨?_, ?_, ?_, ?_, ?_, ?_, ?_, ?_⟩
  · intro env b d pt v hv
    simp [runMain, CreateHeartbeat, hv]
  · intro env; rfl
  · intro env b t; rfl
  · intro env b lim; rfl
  · intro env p st sp c n j src hf
    cases j <;> simp [runMain, QueryEvents, hf]
  · intro env p st sp c n j hf
    simp [runMain, hf]
  · intro env b; rfl
  · intro env b
    rcases h : _query_yes_no ("Really Delete bucket " ++ b) (some "no") env.stdin with m | o
    · simp [runMain, DeleteBucket, h]
    · rcases o with b' | _
      · rcases b' <;> simp [runMain, DeleteBucket, h]
      · simp [runMain, DeleteBucket, h]

/-- Witness for C2 (amended): the heartbeat conjunct at an environment
whose JSON parser accepts the payload, and the two query conjuncts at a
readable and an unreadable path. -/
theorem C2_amended_witness :
    (sampleEnv.jloads "\x7b\x7d" = some "\x7b\x7d" ∧
      (runMain sampleEnv (Cmd.heartbeat "b" "\x7b\x7d" 60)).calls.length = 1)
    ∧ (sampleEnv.files "q.txt" = some "RETURN = 1;" ∧
        (runMain sampleEnv (Cmd.query "q.txt" 0 1 false none false)).calls.length = 1)
    ∧ (sampleEnv.files "missing" = none ∧
        (runMain sampleEnv (Cmd.query "missing" 0 1 false none false)).calls.length = 0) :=
  ⟨⟨rfl, C2_amended.1 sampleEnv "b" "\x7b\x7d" 60 "\x7b\x7d" rfl⟩,
   ⟨rfl, C2_amended.2.2.2.2.1 sampleEnv "q.txt" 0 1 false none false "RETURN = 1;" rfl⟩,
   ⟨rfl, C2_amended.2.2.2.2.2.1 sampleEnv "missing" 0 1 false none false rfl⟩⟩

/-- Claim C3 counterexample: for a period holding one event of 59.9
seconds, the rendered total keeps the fractional part
(`0:00:59.900000`), so it is not the truncated 4.2 rendering `0:00:59`. -/
theorem C3_counterexample :
    renderPeriod [qev599] =
      (["Showing 10 out of 1 events:",
        " - Duration: 0:00:59 \tData: d",
        "Total duration:\t 0:00:59.900000"], none)
    ∧ "Total duration:\t 0:00:59.900000" ≠
        "Total duration:\t " ++ formatDuration 59900000 :=
  ⟨rfl, by decide⟩

/-- Claim C3 (amended): the emitted period total equals the sum of the
durations of all events in the period (not only the first 10), but it is
rendered with Python's default `timedelta` string, which keeps the
fractional part, rather than through the truncating formatter of 4.2. -/
theorem C3_amended (p : List QEvent)
    (h : ∀ e ∈ p.take 10, e.hasId = true ∧ e.hasTimestamp = true) :
    (renderPeriod p).2 = none ∧
    (renderPeriod p).1.getLast? =
      some ("Total duration:\t " ++ timedeltaStr (sumDuration p)) := by
  rw [renderPeriod_ok h]
  refine ⟨rfl, ?_⟩
  show (_ :: (_ ++ [totalLine p])).getLast? = _
  rw [← List.cons_append, List.getLast?_concat]
  rfl

/-- Witness for C3 (amended) at the empty period. -/
theorem C3_amended_witness :
    (renderPeriod ([] : List QEvent)).2 = none ∧
    (renderPeriod ([] : List QEvent)).1.getLast? =
      some ("Total duration:\t " ++ timedeltaStr (sumDuration [])) :=
  C3_amended [] (by simp)

/-- Claim C4: a heartbeat whose payload the JSON parser rejects fails
before any server call (no calls, nothing printed, an uncaught
`json.JSONDecodeError`, which is the spec's `InvalidArgument`); a payload
that parses yields exactly one `heartbeat` call carrying an event with zero
duration, the invocation timestamp and the parsed payload, with the given
bucket and pulsetime — and the dispatcher passes `now` as that timestamp. -/
theorem C4_heartbeat (jl : String → Option String) (b d : String) (ts pt : ℕ) :
    (jl d = none →
      CreateHeartbeat jl b d ts pt =
        { calls := [], out := [], status := .exn "json.JSONDecodeError" })
  ∧ (∀ v, jl d = some v →
      CreateHeartbeat jl b d ts pt =
        { calls := [.heartbeat b ⟨0, ts, v⟩ pt],
          out := [.printedEvent ⟨0, ts, v⟩],
          status := .ok })
  ∧ (∀ (env : Env) (pt' : ℕ),
      runMain env (Cmd.heartbeat b d pt') =
        CreateHeartbeat env.jloads b d env.now pt') := by
  refine ⟨?_, ?_, ?_⟩
  · intro h; simp [CreateHeartbeat, h]
  · intro v h; simp [CreateHeartbeat, h]
  · intro env pt'; rfl

/-- Witness for C4: a parser rejecting everything gives the error outcome
with no server call; the accepting case at a concrete payload. -/
theorem C4_heartbeat_witness :
    ((fun _ : String => (none : Option String)) "x" = none ∧
      CreateHeartbeat (fun _ => none) "b" "x" 5 60 =
        { calls := [], out := [], status := .exn "json.JSONDecodeError" })
    ∧ (sampleEnv.jloads "\x7b\x7d" = some "\x7b\x7d" ∧
        CreateHeartbeat sampleEnv.jloads "b" "\x7b\x7d" 5 60 =
          { calls := [.heartbeat "b" ⟨0, 5, "\x7b\x7d"⟩ 60],
            out := [.printedEvent ⟨0, 5, "\x7b\x7d"⟩],
            status := .ok }) :=
  ⟨⟨rfl, (C4_heartbeat (fun _ => none) "b" "x" 5 60).1 rfl⟩,
   ⟨rfl, (C4_heartbeat sampleEnv.jloads "b" "\x7b\x7d" 5 60).2.1 "\x7b\x7d" rfl⟩⟩

/-- Claim C5: with `force` the delete call happens unconditionally and no
input is read; without `force` the prompt is asked with the bucket name in
the question and default no, the delete call happens exactly on a yes
answer, and empty input (taking the default) answers no. -/
theorem C5_DeleteBucket (b : String) (stdin : List String) :
    DeleteBucket b true stdin =
      { calls := [ServerCall.delete_bucket b], out := [], status := .ok }
  ∧ (_query_yes_no ("Really Delete bucket " ++ b) (some "no") stdin =
        .ok (.answered true) →
      DeleteBucket b false stdin =
        { calls := [ServerCall.delete_bucket b], out := [], status := .ok })
  ∧ (_query_yes_no ("Really Delete bucket " ++ b) (some "no") stdin =
        .ok (.answered false) →
      DeleteBucket b false stdin = { calls := [], out := [], status := .ok })
  ∧ (ServerCall.delete_bucket b ∈ (DeleteBucket b false stdin).calls ↔
      _query_yes_no ("Really Delete bucket " ++ b) (some "no") stdin =
        .ok (.answered true))
  ∧ (∀ rest : List String,
      _query_yes_no ("Really Delete bucket " ++ b) (some "no") ("" :: rest) =
        .ok (.answered false)) := by
  refine ⟨rfl, ?_, ?_, ?_, ?_⟩
  · intro h; simp [DeleteBucket, h]
  · intro h; simp [DeleteBucket, h]
  · rcases h : _query_yes_no ("Really Delete bucket " ++ b) (some "no") stdin with m | o
    · simp [DeleteBucket, h]
    · rcases o with b' | _
      · rcases b' <;> simp [DeleteBucket, h]
      · simp [DeleteBucket, h]
  · intro rest; rfl

/-- Witness for C5: concrete bucket and a yes line on stdin. -/
theorem C5_DeleteBucket_witness :
    _query_yes_no ("Really Delete bucket " ++ "x") (some "no") ["y"] =
      .ok (.answered true) ∧
    DeleteBucket "x" false ["y"] =
      { calls := [ServerCall.delete_bucket "x"], out := [], status := .ok } :=
  ⟨rfl, (C5_DeleteBucket "x" ["y"]).2.1 rfl⟩

/-- Claim C6 counterexample: at 24 hours the formatter emits Python's
day-prefixed rendering `1 day, 0:00:00`, not the spec's unbounded-hours
`24:00:00`. -/
theorem C6_counterexample :
    formatDuration 86400000000 = "1 day, 0:00:00"
    ∧ specFormatHMS 86400000000 = "24:00:00"
    ∧ formatDuration 86400000000 ≠ specFormatHMS 86400000000 :=
  ⟨rfl, rfl, by decide⟩

/-- Claim C6 (amended): for every duration (given at timedelta's
microsecond granularity), the formatter truncates to whole seconds and
renders them as Python `str(timedelta)` does: hours run 0..23 with an
explicit 0 for durations under an hour, minutes and seconds are
zero-padded to two digits, and full days appear as a day-count label
before the `H:MM:SS` part; the three example values hold. -/
theorem C6_amended :
    (∀ us : ℕ, formatDuration us = timedeltaBase (us / 1000000))
  ∧ (∀ sec : ℕ, sec % 86400 / 3600 < 24)
  ∧ formatDuration 0 = "0:00:00"
  ∧ formatDuration 3661000000 = "1:01:01"
  ∧ formatDuration 59900000 = "0:00:59" :=
  ⟨formatDuration_eq_base, fun sec => by omega, rfl, rfl, rfl⟩

/-- Claim C7: empty input returns the default when it is yes or no; with no
default, empty or unrecognized input re-prompts until a recognized answer
arrives; any other default raises `ValueError` (the spec's
`InvalidArgument`). -/
theorem C7_confirm :
    (∀ (q : String) (rest : List String),
        _query_yes_no q (some "yes") ("" :: rest) = .ok (.answered true))
  ∧ (∀ (q : String) (rest : List String),
        _query_yes_no q (some "no") ("" :: rest) = .ok (.answered false))
  ∧ (∀ (q : String) (inputs : List String),
        (∀ l ∈ inputs, validAnswer (pyLower l) = none) →
        _query_yes_no q none inputs = .ok .needInput)
  ∧ (∀ (q : String) (inputs : List String) (l : String) (b : Bool),
        (∀ x ∈ inputs, validAnswer (pyLower x) = none) →
        validAnswer (pyLower l) = some b →
        _query_yes_no q none (inputs ++ [l]) = .ok (.answered b))
  ∧ (∀ (q d : String) (inputs : List String), d ≠ "yes" → d ≠ "no" →
        _query_yes_no q (some d) inputs =
          .error ("invalid default answer: \"" ++ d ++ "\"")) := by
  refine ⟨fun q rest => rfl, fun q rest => rfl, ?_, ?_, ?_⟩
  · intro q inputs h
    induction inputs with
    | nil => rfl
    | cons l rest ih =>
      have hl := h l (List.mem_cons_self l rest)
      show queryLoop none (l :: rest) = .ok .needInput
      rw [queryLoop]
      simp [hl]
      exact ih (fun x hx => h x (List.mem_cons_of_mem l hx))
  · intro q inputs l b h hl
    induction inputs with
    | nil =>
      show queryLoop none [l] = .ok (.answered b)
      rw [queryLoop]
      simp [hl]
    | cons x rest ih =>
      have hx := h x (List.mem_cons_self x rest)
      show queryLoop none ((x :: rest) ++ [l]) = .ok (.answered b)
      rw [List.cons_append, queryLoop]
      simp [hx]
      exact ih (fun y hy => h y (List.mem_cons_of_mem x hy))
  · intro q d inputs h1 h2
    show _query_yes_no q (some d) inputs = _
    rw [_query_yes_no]
    rw [if_neg h1, if_neg h2]

/-- Witness for C7: a rejected default at a concrete call, and the
invalid-then-valid input loop at concrete lines. -/
theorem C7_confirm_witness :
    _query_yes_no "Q" (some "maybe") ["y"] =
      .error ("invalid default answer: \"" ++ "maybe" ++ "\"")
    ∧ _query_yes_no "Q" none (["", "foo"] ++ ["YE"]) = .ok (.answered true) :=
  ⟨C7_confirm.2.2.2.2 "Q" "maybe" ["y"] (by decide) (by decide),
   C7_confirm.2.2.2.1 "Q" ["", "foo"] "YE" true (by decide) (by decide)⟩

/-- Claim C8: under the precondition that the displayed events carry both
internal keys, the human render of a period is the header
`Showing 10 out of N events:` (with the period's true count, also when
N ≤ 10 or N = 0), then exactly `min N 10` event lines — each printed from
the record with `id` and `timestamp` removed — then the total line. -/
theorem C8_render (p : List QEvent)
    (h : ∀ e ∈ p.take 10, e.hasId = true ∧ e.hasTimestamp = true) :
    renderPeriod p =
      (("Showing 10 out of " ++ natToStr p.length ++ " events:") ::
        ((p.take 10).map (fun e => eventLine (stripEvent e)) ++ [totalLine p]),
       none)
    ∧ ((p.take 10).map (fun e => eventLine (stripEvent e))).length =
        min p.length 10
    ∧ ∀ e : QEvent,
        (stripEvent e).hasId = false ∧ (stripEvent e).hasTimestamp = false := by
  refine ⟨renderPeriod_ok h, ?_, fun e => ⟨rfl, rfl⟩⟩
  rw [List.length_map, List.length_take, Nat.min_comm]

/-- Witness for C8 at a one-event period with both keys present. -/
theorem C8_render_witness :
    renderPeriod [qev599] =
      (["Showing 10 out of 1 events:",
        " - Duration: 0:00:59 \tData: d",
        "Total duration:\t 0:00:59.900000"], none) :=
  ((C8_render [qev599] (by decide)).1).trans rfl

/-- Claim C9: the human render is total exactly when every displayed event
(the first `min N 10` of each period) carries both the `id` and the
`timestamp` key; one displayed event missing either key makes the render
raise an uncaught `KeyError`, which surfaces as the invocation's failure
status. -/
theorem C9_render_partial :
    (∀ periods : List (List QEvent),
        (renderPeriods periods).2 = none ↔
          ∀ p ∈ periods, ∀ e ∈ p.take 10,
            e.hasId = true ∧ e.hasTimestamp = true)
  ∧ (∀ (p : List QEvent) (e : QEvent), e ∈ p.take 10 →
        e.hasId = false ∨ e.hasTimestamp = false →
        ∃ m, (renderPeriod p).2 = some m)
  ∧ (∀ (result : List (List QEvent)) (q : String) (st sp : ℕ)
        (c : Bool) (n : Option String),
        (QueryEvents result q st sp c n false).status =
          match (renderPeriods result).2 with
          | none => Status.ok
          | some m => Status.exn m) := by
  refine ⟨renderPeriods_none_iff, ?_, fun result q st sp c n => rfl⟩
  intro p e he hkey
  rcases h2 : (renderPeriod p).2 with _ | m
  · rw [renderPeriod_snd] at h2
    have := (renderEvents_none_iff (p.take 10)).mp h2 e he
    rcases hkey with hk | hk
    · rw [this.1] at hk; cases hk
    · rw [this.2] at hk; cases hk
  · exact ⟨m, rfl⟩

/-- Witness for C9: a period whose only event lacks its `id` key fails. -/
theorem C9_render_partial_witness :
    qevNoId ∈ ([qevNoId] : List QEvent).take 10 ∧
    (qevNoId.hasId = false ∨ qevNoId.hasTimestamp = false) ∧
    ∃ m, (renderPeriod [qevNoId]).2 = some m :=
  ⟨by decide, by decide,
   C9_render_partial.2.1 [qevNoId] qevNoId (by decide) (by decide)⟩

/-- Claim C10: the grammar accepts `events add` and `events delete`, but
the dispatch chain has no branch for them: whatever the environment (so
without reading input or calling the server), both print the top-level
usage help and return normally. -/
theorem C10_events_add_delete (env : Env) (b d : String) (dur : Option ℕ)
    (sq : ℕ) (f : Bool) :
    runMain env (Cmd.eventsAdd b d dur sq) =
      { calls := [], out := [.topLevelHelp], status := .ok }
  ∧ runMain env (Cmd.eventsDelete b f) =
      { calls := [], out := [.topLevelHelp], status := .ok } :=
  ⟨rfl, rfl⟩

end AwCli
